import Mathlib

/-
Verification of the repository-reconciliation core of
crossplane-contrib/provider-github.

Shallow embedding of:
  * pkg/clients/repositories/repository.go  (package repositories)
  * pkg/clients/repositories/repository.go  (package secrets, second unit)
  * pkg/controller/repositories/repository.go (the external adapter)

Go pointer-valued optional fields (`*string`, `*bool`, ...) are embedded as
`Option`; a nil-pointer dereference (Go panic) is embedded as an `Option`
result of the whole operation, `none` meaning the call panics.  Errors are
embedded as `Option String` / `Except String` carrying the error message.
-/

namespace Repositories

/-- xpv1.Reference: only the Name field is used by this code. -/
structure Reference where
  name : String
deriving DecidableEq

/-- github.User: only the Type field is read (r.Owner.Type). -/
structure User where
  utype : Option String
deriving DecidableEq

/-- github.Organization: only the Login field is read (r.Organization.Login). -/
structure Organization where
  login : Option String
deriving DecidableEq

/-- The projection of github.Repository used for the TemplateRepository field:
the code reads only FullName and DefaultBranch of r.TemplateRepository. -/
structure TemplateRepo where
  fullName : Option String
  defaultBranch : Option String
deriving DecidableEq

/-- github.Repository restricted to the fields this code reads or writes,
plus the server-assigned field `id` standing for the fields never touched by
OverrideParameters (they take part in the cmp.Equal comparison). -/
structure Repository where
  id : Option Int := none
  name : Option String := none
  description : Option String := none
  homepage : Option String := none
  private_ : Option Bool := none
  visibility : Option String := none
  hasIssues : Option Bool := none
  hasProjects : Option Bool := none
  hasWiki : Option Bool := none
  autoInit : Option Bool := none
  isTemplate : Option Bool := none
  teamID : Option Int := none
  gitignoreTemplate : Option String := none
  licenseTemplate : Option String := none
  allowSquashMerge : Option Bool := none
  allowMergeCommit : Option Bool := none
  allowRebaseMerge : Option Bool := none
  deleteBranchOnMerge : Option Bool := none
  hasPages : Option Bool := none
  hasDownloads : Option Bool := none
  defaultBranch : Option String := none
  archived : Option Bool := none
  owner : Option User := none
  organization : Option Organization := none
  templateRepository : Option TemplateRepo := none
deriving DecidableEq

/-- v1alpha1.RepositoryParameters (apis/repositories/v1alpha1). -/
structure RepositoryParameters where
  owner : String
  name : String
  organization : Option String := none
  description : Option String := none
  homepage : Option String := none
  private_ : Option Bool := none
  visibility : Option String := none
  hasIssues : Option Bool := none
  hasProjects : Option Bool := none
  hasWiki : Option Bool := none
  isTemplate : Option Bool := none
  teamID : Option Int := none
  autoInit : Option Bool := none
  gitignoreTemplate : Option String := none
  licenseTemplate : Option String := none
  allowSquashMerge : Option Bool := none
  allowMergeCommit : Option Bool := none
  allowRebaseMerge : Option Bool := none
  deleteBranchOnMerge : Option Bool := none
  hasPages : Option Bool := none
  hasDownloads : Option Bool := none
  defaultBranch : Option String := none
  archived : Option Bool := none
  template : Option Reference := none
deriving DecidableEq

/-- xpv1.Condition: only the Reason field is read by LateInitialize. -/
structure Condition where
  reason : String
deriving DecidableEq

/-- xpv1.ReasonCreating. -/
def ReasonCreating : String := "Creating"

/-- ghclient.StringValue: nil pointer becomes the empty string. -/
def stringValue : Option String → String
  | none => ""
  | some s => s

/-- One `if rp.X != nil { r.X = rp.X }` step of OverrideParameters. -/
def overrideField {α : Type} : Option α → Option α → Option α
  | some v, _ => some v
  | none, d => d

/-- OverrideParameters (pkg/clients/repositories/repository.go): every non-nil
field of the parameters replaces the corresponding field of the repository;
Name is overridden whenever the (plain string) name is non-empty. -/
def OverrideParameters (rp : RepositoryParameters) (r : Repository) : Repository :=
  { r with
    name := if rp.name ≠ "" then some rp.name else r.name
    description := overrideField rp.description r.description
    homepage := overrideField rp.homepage r.homepage
    private_ := overrideField rp.private_ r.private_
    visibility := overrideField rp.visibility r.visibility
    hasIssues := overrideField rp.hasIssues r.hasIssues
    hasProjects := overrideField rp.hasProjects r.hasProjects
    hasWiki := overrideField rp.hasWiki r.hasWiki
    autoInit := overrideField rp.autoInit r.autoInit
    isTemplate := overrideField rp.isTemplate r.isTemplate
    teamID := overrideField rp.teamID r.teamID
    gitignoreTemplate := overrideField rp.gitignoreTemplate r.gitignoreTemplate
    licenseTemplate := overrideField rp.licenseTemplate r.licenseTemplate
    allowSquashMerge := overrideField rp.allowSquashMerge r.allowSquashMerge
    allowMergeCommit := overrideField rp.allowMergeCommit r.allowMergeCommit
    allowRebaseMerge := overrideField rp.allowRebaseMerge r.allowRebaseMerge
    deleteBranchOnMerge := overrideField rp.deleteBranchOnMerge r.deleteBranchOnMerge
    hasPages := overrideField rp.hasPages r.hasPages
    hasDownloads := overrideField rp.hasDownloads r.hasDownloads
    defaultBranch := overrideField rp.defaultBranch r.defaultBranch
    archived := overrideField rp.archived r.archived }

/-- cmp.Equal with cmpopts.IgnoreFields(github.Repository{}, "AutoInit"):
field-wise equality of two repositories skipping the AutoInit field. -/
def eqIgnoringAutoInit (a b : Repository) : Bool :=
  a.id == b.id && a.name == b.name && a.description == b.description &&
  a.homepage == b.homepage && a.private_ == b.private_ &&
  a.visibility == b.visibility && a.hasIssues == b.hasIssues &&
  a.hasProjects == b.hasProjects && a.hasWiki == b.hasWiki &&
  a.isTemplate == b.isTemplate && a.teamID == b.teamID &&
  a.gitignoreTemplate == b.gitignoreTemplate &&
  a.licenseTemplate == b.licenseTemplate &&
  a.allowSquashMerge == b.allowSquashMerge &&
  a.allowMergeCommit == b.allowMergeCommit &&
  a.allowRebaseMerge == b.allowRebaseMerge &&
  a.deleteBranchOnMerge == b.deleteBranchOnMerge &&
  a.hasPages == b.hasPages && a.hasDownloads == b.hasDownloads &&
  a.defaultBranch == b.defaultBranch && a.archived == b.archived &&
  a.owner == b.owner && a.organization == b.organization &&
  a.templateRepository == b.templateRepository

/-- IsUpToDate (pkg/clients/repositories/repository.go): deep-copy the
observed repository, apply OverrideParameters onto the copy, compare the
result to the observed repository ignoring AutoInit.  The deep copy of a pure
value always succeeds, so the error component is always none. -/
def IsUpToDate (rp : RepositoryParameters) (observed : Repository) :
    Bool × Option String :=
  let clone := observed
  let desired := OverrideParameters rp clone
  (eqIgnoringAutoInit desired observed, none)

/-- Spec-side reading of the comparison in the claim: structural equality on
every field of Repository except AutoInit. -/
def EqExceptAutoInit (a b : Repository) : Prop :=
  a.id = b.id ∧ a.name = b.name ∧ a.description = b.description ∧
  a.homepage = b.homepage ∧ a.private_ = b.private_ ∧
  a.visibility = b.visibility ∧ a.hasIssues = b.hasIssues ∧
  a.hasProjects = b.hasProjects ∧ a.hasWiki = b.hasWiki ∧
  a.isTemplate = b.isTemplate ∧ a.teamID = b.teamID ∧
  a.gitignoreTemplate = b.gitignoreTemplate ∧
  a.licenseTemplate = b.licenseTemplate ∧
  a.allowSquashMerge = b.allowSquashMerge ∧
  a.allowMergeCommit = b.allowMergeCommit ∧
  a.allowRebaseMerge = b.allowRebaseMerge ∧
  a.deleteBranchOnMerge = b.deleteBranchOnMerge ∧
  a.hasPages = b.hasPages ∧ a.hasDownloads = b.hasDownloads ∧
  a.defaultBranch = b.defaultBranch ∧ a.archived = b.archived ∧
  a.owner = b.owner ∧ a.organization = b.organization ∧
  a.templateRepository = b.templateRepository

/-- One `if rp.X == nil && r.X != nil { rp.X = r.X }` step of LateInitialize. -/
def fillField {α : Type} : Option α → Option α → Option α
  | none, some v => some v
  | o, _ => o

/-- The Organization step of LateInitialize:
`if rp.Organization == nil && ghclient.StringValue(r.Owner.Type) == "Organization"`.
Go's && short-circuits, so r.Owner is dereferenced only when rp.Organization
is nil; a nil r.Owner (resp. a nil r.Organization inside the branch) is a
nil-pointer dereference, embedded as `none` (panic). -/
def lateInitOrg (rpOrg : Option String) (r : Repository) : Option (Option String) :=
  match rpOrg with
  | some v => some (some v)
  | none =>
    match r.owner with
    | none => none
    | some u =>
      if stringValue u.utype = "Organization" then
        match r.organization with
        | none => none
        | some o =>
          match o.login with
          | some l => some (some l)
          | none => some none
      else some none

/-- The Template step of LateInitialize:
`if r.TemplateRepository != nil { rp.Template = &Reference{Name: *r.TemplateRepository.FullName} }`.
Runs unconditionally on the parameters' current template; dereferencing a nil
FullName is a panic (`none`). -/
def lateInitTemplate (rpTemplate : Option Reference) (r : Repository) :
    Option (Option Reference) :=
  match r.templateRepository with
  | some t =>
    match t.fullName with
    | none => none
    | some fn => some (some ⟨fn⟩)
  | none => some rpTemplate

/-- The DefaultBranch step of LateInitialize, returning the new value of
rp.DefaultBranch and the (possibly corrected) value of r.DefaultBranch.
Mirrors `if c.Reason == xpv1.ReasonCreating && r.TemplateRepository != nil`. -/
def lateInitDefaultBranch (rpDb : Option String) (r : Repository) (c : Condition) :
    Option String × Option String :=
  match r.templateRepository with
  | some t =>
    if c.reason = ReasonCreating then
      if rpDb = none then (t.defaultBranch, t.defaultBranch)
      else (rpDb, r.defaultBranch)
    else (fillField rpDb r.defaultBranch, r.defaultBranch)
  | none => (fillField rpDb r.defaultBranch, r.defaultBranch)

/-- LateInitialize (pkg/clients/repositories/repository.go): fills the nil
fields of the parameters from the observed repository, unconditionally resets
the template reference from the observed template origin, and applies the
default-branch correction in the creating phase.  The result is the updated
(parameters, repository) pair; `none` means the Go code panics on a
nil-pointer dereference. -/
def LateInitialize (rp : RepositoryParameters) (r : Repository) (c : Condition) :
    Option (RepositoryParameters × Repository) :=
  match lateInitOrg rp.organization r with
  | none => none
  | some org =>
  match lateInitTemplate rp.template r with
  | none => none
  | some template =>
  let db := lateInitDefaultBranch rp.defaultBranch r c
  some ({ rp with
      organization := org
      description := fillField rp.description r.description
      homepage := fillField rp.homepage r.homepage
      private_ := fillField rp.private_ r.private_
      visibility := fillField rp.visibility r.visibility
      hasIssues := fillField rp.hasIssues r.hasIssues
      hasProjects := fillField rp.hasProjects r.hasProjects
      hasWiki := fillField rp.hasWiki r.hasWiki
      isTemplate := fillField rp.isTemplate r.isTemplate
      teamID := fillField rp.teamID r.teamID
      autoInit := fillField rp.autoInit r.autoInit
      gitignoreTemplate := fillField rp.gitignoreTemplate r.gitignoreTemplate
      licenseTemplate := fillField rp.licenseTemplate r.licenseTemplate
      allowSquashMerge := fillField rp.allowSquashMerge r.allowSquashMerge
      allowMergeCommit := fillField rp.allowMergeCommit r.allowMergeCommit
      allowRebaseMerge := fillField rp.allowRebaseMerge r.allowRebaseMerge
      deleteBranchOnMerge := fillField rp.deleteBranchOnMerge r.deleteBranchOnMerge
      hasPages := fillField rp.hasPages r.hasPages
      hasDownloads := fillField rp.hasDownloads r.hasDownloads
      archived := fillField rp.archived r.archived
      template := template
      defaultBranch := db.1 },
    { r with defaultBranch := db.2 })

/-- Fixture: parameters that already carry a template reference. -/
def rpTemplSet : RepositoryParameters :=
  { owner := "crossplane", name := "repo",
    template := some ⟨"old-owner/old-name"⟩ }

/-- Fixture: an observed repository created from a different template. -/
def rTemplObs : Repository :=
  { owner := some ⟨some "User"⟩,
    templateRepository := some ⟨some "new-owner/new-name", some "main"⟩ }

/-- Fixture: a condition outside the creating phase. -/
def condNotCreating : Condition := ⟨"Available"⟩

/-- Fixture: a condition in the creating phase. -/
def condCreating : Condition := ⟨ReasonCreating⟩

/-- Fixture: minimal parameters with no optional field set. -/
def rpBare : RepositoryParameters := { owner := "crossplane", name := "repo" }

/-- Fixture: an observed repository owned by a personal account. -/
def rUserOwned : Repository := { owner := some ⟨some "User"⟩ }

/-- Fixture: parameters whose organization is already set. -/
def rpOrgSet : RepositoryParameters :=
  { owner := "crossplane", name := "repo", organization := some "acme" }

/-- Fixture: an observed repository with a nil owner. -/
def rNoOwner : Repository := {}

/-- Fixture: an organization-owned repository whose Organization field is nil. -/
def rOrgNil : Repository := { owner := some ⟨some "Organization"⟩ }

/-- Fixture: a repository with a template origin whose FullName is nil. -/
def rTemplNoName : Repository :=
  { owner := some ⟨some "User"⟩, templateRepository := some ⟨none, none⟩ }

/-- Fixture: an observed repository for the default-branch claims, with both
an own default branch and a template origin carrying a different one. -/
def rTemplBranch : Repository :=
  { owner := some ⟨some "User"⟩, defaultBranch := some "main",
    templateRepository := some ⟨some "tpl-owner/tpl", some "trunk"⟩ }

/-- The result parameters of LateInitialize on rpBare/rTemplBranch in the
creating phase. -/
def rpTemplBranchOut : RepositoryParameters :=
  { rpBare with template := some ⟨"tpl-owner/tpl"⟩, defaultBranch := some "trunk" }

/-- The result repository of LateInitialize on rpBare/rTemplBranch in the
creating phase. -/
def rTemplBranchOut : Repository :=
  { rTemplBranch with defaultBranch := some "trunk" }

/-- Fixture: a plain observed repository with an own default branch. -/
def rOwnBranch : Repository :=
  { owner := some ⟨some "User"⟩, defaultBranch := some "develop" }

/-- The result parameters of LateInitialize on rpBare/rOwnBranch outside the
creating phase. -/
def rpOwnBranchOut : RepositoryParameters :=
  { rpBare with defaultBranch := some "develop" }

/-- The fixed error message errFullname of SplitFullName. -/
def errFullname : String :=
  "The templateRef fullname is not valid. It needs to be in the format \x7bowner\x7d/\x7bname\x7d"

/-- Go strings.Split with the one-character separator "/": splitting the
empty string yields one empty segment, and every separator starts a new
segment. -/
def splitSlash : List Char → List (List Char)
  | [] => [[]]
  | c :: rest =>
    let r := splitSlash rest
    if c = '/' then [] :: r
    else
      match r with
      | [] => [[c]]
      | h :: t => (c :: h) :: t

/-- SplitFullName (pkg/clients/repositories/repository.go): split on "/";
exactly two segments yield the map with keys "owner" and "name" (embedded as
an association list); any other segment count yields the fixed error. -/
def SplitFullName (fullname : String) : Except String (List (String × String)) :=
  match (splitSlash fullname.toList).map (fun l => String.mk l) with
  | [owner, name] => .ok [("owner", owner), ("name", name)]
  | _ => .error errFullname

end Repositories

namespace Secrets

/-- github.PublicKey: key id and base64-encoded key material. -/
structure PublicKey where
  keyID : String
  key : String
deriving DecidableEq

/-- github.EncryptedSecret as uploaded: name, key id, base64 ciphertext. -/
structure EncryptedSecret where
  name : String
  keyID : String
  encryptedValue : String
deriving DecidableEq

/-- The remote secret record as read back: only UpdatedAt.String() is used. -/
structure GHSecret where
  updatedAt : String
deriving DecidableEq

/-- v1alpha1.SecretsObservation: cached content hash and last-update string. -/
structure SecretsObservation where
  encryptValue : Option String := none
  lastUpdate : Option String := none
deriving DecidableEq

/-- encryptSecret (package secrets): base64-decode the repository public key
(error when it does not decode), seal the plaintext and base64-encode the
ciphertext, and build the encrypted-secret record.  The decoder and the
(randomized) sealed-box construction are abstract parameters `b64decode` and
`sealFn`; no claim depends on their values. -/
def encryptSecret (b64decode : String → Option (List Nat))
    (sealFn : String → String) (publicKey : PublicKey)
    (secretName secretValue : String) : Except String EncryptedSecret :=
  match b64decode publicKey.key with
  | none => .error "base64 decode error"
  | some _ =>
    .ok { name := secretName, keyID := publicKey.keyID,
          encryptedValue := sealFn secretValue }

/-- callEncryptSecret (package secrets).  `hashFn` abstracts generateHash
(the SHA-256 hex digest of the plaintext); `pubKeyRes` is the outcome of
gh.GetRepoPublicKey and `extractRes` the outcome of resource.ExtractSecret.
The source line `val, _ := resource.ExtractSecret(ctx, client, ref)` DISCARDS
the extraction error: on failure val is the zero value (empty bytes), and the
function proceeds rather than failing. -/
def callEncryptSecret (hashFn : String → String)
    (b64decode : String → Option (List Nat)) (sealFn : String → String)
    (pubKeyRes : Except String PublicKey) (extractRes : Except String String)
    (name : String) : Except String (EncryptedSecret × String) :=
  match pubKeyRes with
  | .error e => .error e
  | .ok publicKey =>
    let val : String :=
      match extractRes with
      | .ok v => v
      | .error _ => ""
    match encryptSecret b64decode sealFn publicKey name val with
    | .error e => .error e
    | .ok encryptedSecret => .ok (encryptedSecret, hashFn val)

/-- CreateOrUpdateSec (package secrets): encrypt, upload via the remote
create-or-update call (`uploadErr` its outcome), return the content hash. -/
def CreateOrUpdateSec (hashFn : String → String)
    (b64decode : String → Option (List Nat)) (sealFn : String → String)
    (pubKeyRes : Except String PublicKey) (extractRes : Except String String)
    (uploadErr : Option String) (name : String) : Except String String :=
  match callEncryptSecret hashFn b64decode sealFn pubKeyRes extractRes name with
  | .error e => .error ("error to call secret: " ++ e)
  | .ok (_, hash) =>
    match uploadErr with
    | some e => .error ("error to create or update secret: " ++ e)
    | none => .ok hash

/-- IsUpToDate (package secrets): fetch the remote secret (`getSecretRes` the
outcome), recompute the hash via callEncryptSecret, then compare the hash to
the cached *o.EncryptValue and the remote UpdatedAt string to the cached
*o.LastUpdate.  Dereferencing a nil cached field is a panic (`none`). -/
def IsUpToDate (hashFn : String → String)
    (b64decode : String → Option (List Nat)) (sealFn : String → String)
    (getSecretRes : Except String GHSecret)
    (pubKeyRes : Except String PublicKey) (extractRes : Except String String)
    (o : SecretsObservation) (name : String) : Option (Except String Bool) :=
  match getSecretRes with
  | .error e => some (.error ("error to get secret from github: " ++ e))
  | .ok sec =>
    match callEncryptSecret hashFn b64decode sealFn pubKeyRes extractRes name with
    | .error e => some (.error ("error to call secret: " ++ e))
    | .ok (_, hash) =>
      match o.encryptValue with
      | none => none
      | some cached =>
        if hash ≠ cached then some (.ok false)
        else
          match o.lastUpdate with
          | none => none
          | some lu =>
            if sec.updatedAt ≠ lu then some (.ok false)
            else some (.ok true)

/-- Fixture: a stand-in content-hash function (tags its input). -/
def hashFix : String → String := fun s => s ++ "#h"

/-- Fixture: a base64 decoder that accepts everything. -/
def b64Fix : String → Option (List Nat) := fun _ => some []

/-- Fixture: a stand-in sealing function. -/
def sealFix : String → String := fun s => s

/-- Fixture: a repository public key. -/
def pkFix : PublicKey := ⟨"172354871263548712365487", "ZjRrM2szeQ=="⟩

/-- Fixture: a remote secret record. -/
def secFix : GHSecret := ⟨"0001-01-01 00:00:00 +0000 UTC"⟩

/-- Fixture: a cached observation matching hashFix "v" and secFix. -/
def obsFix : SecretsObservation :=
  { encryptValue := some (hashFix "v"),
    lastUpdate := some "0001-01-01 00:00:00 +0000 UTC" }

end Secrets

namespace Controller

open Repositories

/-- The outcome of one call to gh.Get: repository, response (its status
code; `none` embeds a nil *github.Response) and error. -/
structure GetResult where
  repo : Option Repository := none
  resp : Option Nat := none
  err : Option String := none
deriving DecidableEq

/-- errors.Wrap: wrapping a nil error yields nil. -/
def wrapErr : Option String → String → Option String
  | none, _ => none
  | some e, m => some (m ++ ": " ++ e)

/-- GetRepository (pkg/controller/repositories/repository.go): try the
spec-declared name, fall back to the status-recorded name. -/
def GetRepository (g1 g2 : GetResult) :
    Option Repository × Option Nat × Option String :=
  if g1.err = none then (g1.repo, g1.resp, none)
  else if g2.err = none then (g2.repo, g2.resp, none)
  else (none, g2.resp, g2.err)

/-- managed.ExternalObservation restricted to the fields Observe sets. -/
structure ExternalObservation where
  resourceExists : Bool := false
  resourceUpToDate : Bool := false
  resourceLateInitialized : Bool := false
deriving DecidableEq

/-- The collaborator outcomes one Observe cycle consumes. -/
structure ObserveEnv where
  g1 : GetResult := {}
  g2 : GetResult := {}
  kubeUpdateErr : Option String := none
deriving DecidableEq

/-- external.Observe (pkg/controller/repositories/repository.go).  On a fetch
error the code reads res.StatusCode with no nil check (`none` response means
the Go code panics); 404 reports non-existence with no error; other errors
are wrapped.  On success it late-initializes (panics propagate), persists the
spec when late-init changed it (`kubeUpdateErr` the store outcome), and runs
the repositories IsUpToDate on the late-initialized pair.  The observation
projection into status is not modelled (no claim reads it). -/
def Observe (rp : RepositoryParameters) (c : Condition) (env : ObserveEnv) :
    Option (ExternalObservation × Option String) :=
  let g := GetRepository env.g1 env.g2
  match g.2.2 with
  | some e =>
    match g.2.1 with
    | none => none
    | some code =>
      if code = 404 then some ({}, none)
      else some ({}, some ("Cannot get GitHub repository: " ++ e))
  | none =>
    match g.1 with
    | none => none
    | some r =>
      match LateInitialize rp r c with
      | none => none
      | some (rp', r') =>
        if rp' ≠ rp then
          match env.kubeUpdateErr with
          | some e =>
            some ({}, some ("cannot update Repository custom resource: " ++ e))
          | none =>
            some ({ resourceExists := true,
                    resourceUpToDate := (IsUpToDate rp' r').1,
                    resourceLateInitialized := true }, none)
        else
          some ({ resourceExists := true,
                  resourceUpToDate := (IsUpToDate rp' r').1,
                  resourceLateInitialized := false }, none)

/-- The collaborator outcomes one CreateRepository call consumes. -/
structure CreateEnv where
  createErr : Option String := none
  tmplResp : Option Nat := none
  tmplErr : Option String := none
deriving DecidableEq

/-- external.CreateRepository: without a template reference, issue the plain
create call; with one, split its full name (fixed error when malformed) and
issue CreateFromTemplate, whose response status is read with NO nil check
(`none` response means the Go code panics, whatever the error was); a 404
wraps the error as "template not found".  The request built by
GenerateTemplateRepoRequest does not influence the outcome and is not
modelled. -/
def CreateRepository (rp : RepositoryParameters) (env : CreateEnv) :
    Option (Option String) :=
  match rp.template with
  | none => some env.createErr
  | some tref =>
    match SplitFullName tref.name with
    | .error e => some (some e)
    | .ok _ =>
      match env.tmplResp with
      | none => none
      | some code =>
        if code = 404 then
          some (wrapErr env.tmplErr "the referenced repository template was not found")
        else some env.tmplErr

/-- Fixture: both lookups fail and the fallback response is a 404. -/
def envNotFound : ObserveEnv :=
  { g1 := { resp := some 404, err := some "boom" },
    g2 := { resp := some 404, err := some "boom" } }

/-- Fixture: both lookups fail with a server error response. -/
def envServerErr : ObserveEnv :=
  { g1 := { resp := some 500, err := some "boom" },
    g2 := { resp := some 500, err := some "boom" } }

/-- Fixture: both lookups fail and the response is nil. -/
def envNilResp : ObserveEnv :=
  { g1 := { err := some "boom" },
    g2 := { err := some "boom" } }

/-- Fixture: an observed repository matching rpMatch. -/
def rMatch : Repository :=
  { name := some "repo", defaultBranch := some "main",
    owner := some ⟨some "User"⟩ }

/-- Fixture: parameters fully matching rMatch (no late-init, no drift). -/
def rpMatch : RepositoryParameters :=
  { owner := "crossplane", name := "repo", defaultBranch := some "main" }

/-- Fixture: a successful fetch of rMatch. -/
def envMatch : ObserveEnv := { g1 := { repo := some rMatch, resp := some 200 } }

/-- Fixture: parameters that want issues enabled. -/
def rpDrift : RepositoryParameters := { rpMatch with hasIssues := some true }

/-- Fixture: the observed repository with issues disabled (drift). -/
def rDrift : Repository := { rMatch with hasIssues := some false }

/-- Fixture: a successful fetch of the drifted repository. -/
def envDrift : ObserveEnv := { g1 := { repo := some rDrift, resp := some 200 } }

/-- Fixture: parameters referencing a well-formed template. -/
def rpTmplRef : RepositoryParameters :=
  { owner := "crossplane", name := "repo", template := some ⟨"a/b"⟩ }

/-- Fixture: CreateFromTemplate fails with a nil response. -/
def cenvNilResp : CreateEnv := { tmplErr := some "boom" }

end Controller

namespace Repositories

theorem overrideField_idem {α : Type} (o d : Option α) :
    overrideField o (overrideField o d) = overrideField o d := by
  cases o <;> rfl

theorem fillField_some {α : Type} (v : α) (d : Option α) :
    fillField (some v) d = some v := rfl

theorem fillField_idem {α : Type} (o d : Option α) :
    fillField (fillField o d) d = fillField o d := by
  cases o <;> cases d <;> rfl

theorem lateInitOrg_idem (rpOrg org : Option String) (r r' : Repository)
    (hown : r'.owner = r.owner) (horgn : r'.organization = r.organization)
    (h : lateInitOrg rpOrg r = some org) :
    lateInitOrg org r' = some org := by
  cases org with
  | some l => rfl
  | none =>
    cases rpOrg with
    | some v => simp [lateInitOrg] at h
    | none =>
      unfold lateInitOrg at h ⊢
      rw [hown, horgn]
      exact h

theorem lateInitTemplate_idem (rpT t' : Option Reference) (r r' : Repository)
    (htr : r'.templateRepository = r.templateRepository)
    (h : lateInitTemplate rpT r = some t') :
    lateInitTemplate t' r' = some t' := by
  unfold lateInitTemplate at h ⊢
  rw [htr]
  cases htt : r.templateRepository with
  | none => simp
  | some t =>
    rw [htt] at h
    cases hfn : t.fullName with
    | none => simp [hfn] at h
    | some fn =>
      simp only [hfn] at h ⊢
      simp at h
      simp [← h]

theorem lateInitDefaultBranch_fst_some (v : String) (r : Repository) (c : Condition) :
    (lateInitDefaultBranch (some v) r c).1 = some v := by
  unfold lateInitDefaultBranch
  cases r.templateRepository with
  | none => rfl
  | some t =>
    by_cases hc : c.reason = ReasonCreating <;> simp [hc, fillField]

theorem lateInitDefaultBranch_idem (rpDb : Option String) (r r' : Repository)
    (c : Condition)
    (htr : r'.templateRepository = r.templateRepository)
    (hdb : r'.defaultBranch = (lateInitDefaultBranch rpDb r c).2) :
    lateInitDefaultBranch (lateInitDefaultBranch rpDb r c).1 r' c =
      lateInitDefaultBranch rpDb r c := by
  unfold lateInitDefaultBranch at hdb ⊢
  rw [htr]
  cases htt : r.templateRepository with
  | none =>
    rw [htt] at hdb
    simp only at hdb
    rw [hdb, fillField_idem]
  | some t =>
    rw [htt] at hdb
    by_cases hc : c.reason = ReasonCreating
    · simp only [hc, if_pos rfl] at hdb ⊢
      by_cases hn : rpDb = none
      · simp only [hn, if_pos rfl] at hdb ⊢
        cases ht : t.defaultBranch with
        | none => simp_all
        | some b => simp_all
      · simp only [if_neg hn] at hdb ⊢
        simp [hn, hdb]
    · simp only [if_neg hc] at hdb ⊢
      rw [hdb, fillField_idem]

end Repositories

/-- C1: IsUpToDate(rp, r) returns true if and only if OverrideParameters(rp, r)
is structurally equal to r on every field except AutoInit, and it returns no
error (the internal deep copy of a pure value always succeeds). -/
theorem isUpToDate_iff_eq_except_autoInit
    (rp : Repositories.RepositoryParameters) (r : Repositories.Repository) :
    ((Repositories.IsUpToDate rp r).1 = true ↔
      Repositories.EqExceptAutoInit (Repositories.OverrideParameters rp r) r) ∧
    (Repositories.IsUpToDate rp r).2 = none := by
  refine ⟨?_, rfl⟩
  simp [Repositories.IsUpToDate, Repositories.eqIgnoringAutoInit,
    Repositories.EqExceptAutoInit, and_assoc]

/-- C8: OverrideParameters is idempotent: applying it a second time with the
same parameters to its own output changes nothing. -/
theorem overrideParameters_idem
    (rp : Repositories.RepositoryParameters) (r : Repositories.Repository) :
    Repositories.OverrideParameters rp (Repositories.OverrideParameters rp r) =
      Repositories.OverrideParameters rp r := by
  simp only [Repositories.OverrideParameters, Repositories.overrideField_idem]
  split <;> rfl

open Repositories

/-- C2 (counterexample): LateInitialize does overwrite an already-set field:
with the template reference of the parameters set to "old-owner/old-name" and
the observed repository carrying the template origin "new-owner/new-name",
LateInitialize replaces the non-nil template reference. -/
theorem lateInitialize_overwrites_template_cx :
    rpTemplSet.template = some ⟨"old-owner/old-name"⟩ ∧
    (LateInitialize rpTemplSet rTemplObs condNotCreating).map
        (fun p => p.1.template) =
      some (some ⟨"new-owner/new-name"⟩) :=
  ⟨rfl, rfl⟩

/-- C2 (amended): whenever LateInitialize returns (no panic), it never
overwrites an already-set field of the parameters EXCEPT the template
reference (which is unconditionally reset from the observed template origin
whenever one is present), and running LateInitialize a second time on its own
output is a no-op. -/
theorem lateInitialize_no_overwrite_except_template
    (rp : RepositoryParameters) (r : Repository) (c : Condition)
    (rp' : RepositoryParameters) (r' : Repository)
    (h : LateInitialize rp r c = some (rp', r')) :
    LateInitialize rp' r' c = some (rp', r') ∧
    (∀ v, rp.organization = some v → rp'.organization = some v) ∧
    (∀ v, rp.description = some v → rp'.description = some v) ∧
    (∀ v, rp.homepage = some v → rp'.homepage = some v) ∧
    (∀ v, rp.private_ = some v → rp'.private_ = some v) ∧
    (∀ v, rp.visibility = some v → rp'.visibility = some v) ∧
    (∀ v, rp.hasIssues = some v → rp'.hasIssues = some v) ∧
    (∀ v, rp.hasProjects = some v → rp'.hasProjects = some v) ∧
    (∀ v, rp.hasWiki = some v → rp'.hasWiki = some v) ∧
    (∀ v, rp.isTemplate = some v → rp'.isTemplate = some v) ∧
    (∀ v, rp.teamID = some v → rp'.teamID = some v) ∧
    (∀ v, rp.autoInit = some v → rp'.autoInit = some v) ∧
    (∀ v, rp.gitignoreTemplate = some v → rp'.gitignoreTemplate = some v) ∧
    (∀ v, rp.licenseTemplate = some v → rp'.licenseTemplate = some v) ∧
    (∀ v, rp.allowSquashMerge = some v → rp'.allowSquashMerge = some v) ∧
    (∀ v, rp.allowMergeCommit = some v → rp'.allowMergeCommit = some v) ∧
    (∀ v, rp.allowRebaseMerge = some v → rp'.allowRebaseMerge = some v) ∧
    (∀ v, rp.deleteBranchOnMerge = some v → rp'.deleteBranchOnMerge = some v) ∧
    (∀ v, rp.hasPages = some v → rp'.hasPages = some v) ∧
    (∀ v, rp.hasDownloads = some v → rp'.hasDownloads = some v) ∧
    (∀ v, rp.archived = some v → rp'.archived = some v) ∧
    (∀ v, rp.defaultBranch = some v → rp'.defaultBranch = some v) := by
  unfold LateInitialize at h
  cases hO : lateInitOrg rp.organization r with
  | none => rw [hO] at h; simp at h
  | some org =>
    rw [hO] at h
    cases hT : lateInitTemplate rp.template r with
    | none => rw [hT] at h; simp at h
    | some template =>
      rw [hT] at h
      simp only at h
      injection h with h12
      injection h12 with h1 h2
      subst h1
      subst h2
      refine ⟨?_, ?_, ?_, ?_, ?_, ?_, ?_, ?_, ?_, ?_, ?_, ?_, ?_, ?_, ?_, ?_,
        ?_, ?_, ?_, ?_, ?_, ?_⟩
      · have hA : lateInitOrg org
            ({r with defaultBranch := (lateInitDefaultBranch rp.defaultBranch r c).2}) =
            some org :=
          lateInitOrg_idem rp.organization org r _ rfl rfl hO
        have hB : lateInitTemplate template
            ({r with defaultBranch := (lateInitDefaultBranch rp.defaultBranch r c).2}) =
            some template :=
          lateInitTemplate_idem rp.template template r _ rfl hT
        have hC : lateInitDefaultBranch (lateInitDefaultBranch rp.defaultBranch r c).1
            ({r with defaultBranch := (lateInitDefaultBranch rp.defaultBranch r c).2}) c =
            lateInitDefaultBranch rp.defaultBranch r c :=
          lateInitDefaultBranch_idem rp.defaultBranch r _ c rfl rfl
        simp [LateInitialize, hA, hB, hC, fillField_idem]
      · intro v hv
        rw [hv] at hO
        simp only [lateInitOrg, Option.some.injEq] at hO
        exact hO.symm
      all_goals
        (intro v hv; simp only [hv, fillField_some, lateInitDefaultBranch_fst_some])

/-- C2 (witness): the amended theorem applied to a concrete run in which
LateInitialize succeeds: the second run is a no-op. -/
theorem lateInitialize_no_overwrite_witness :
    LateInitialize rpBare rUserOwned condNotCreating =
      some (rpBare, rUserOwned) :=
  (lateInitialize_no_overwrite_except_template rpBare rUserOwned
      condNotCreating rpBare rUserOwned (by rfl)).1

/-- C3: when the condition reason is the creating phase and a template origin
is present and the parameters' default branch is unset, LateInitialize sets
the parameters' default branch to the TEMPLATE origin's default branch and
overwrites the observed repository's default branch with the same value;
otherwise (outside the creating phase) it fills the parameters' default
branch from the observed repository's own default branch when non-nil. -/
theorem lateInitialize_defaultBranch_from_template
    (rp : RepositoryParameters) (r : Repository) (c : Condition)
    (rp' : RepositoryParameters) (r' : Repository)
    (h : LateInitialize rp r c = some (rp', r'))
    (hdb : rp.defaultBranch = none) :
    (∀ t, c.reason = ReasonCreating → r.templateRepository = some t →
      rp'.defaultBranch = t.defaultBranch ∧ r'.defaultBranch = t.defaultBranch) ∧
    (c.reason ≠ ReasonCreating →
      ∀ b, r.defaultBranch = some b → rp'.defaultBranch = some b) := by
  unfold LateInitialize at h
  cases hO : lateInitOrg rp.organization r with
  | none => rw [hO] at h; simp at h
  | some org =>
    rw [hO] at h
    cases hT : lateInitTemplate rp.template r with
    | none => rw [hT] at h; simp at h
    | some template =>
      rw [hT] at h
      simp only at h
      injection h with h12
      injection h12 with h1 h2
      subst h1
      subst h2
      constructor
      · intro t hc ht
        constructor
        · show (lateInitDefaultBranch rp.defaultBranch r c).1 = t.defaultBranch
          unfold lateInitDefaultBranch
          rw [ht]
          simp [hc, hdb]
        · show (lateInitDefaultBranch rp.defaultBranch r c).2 = t.defaultBranch
          unfold lateInitDefaultBranch
          rw [ht]
          simp [hc, hdb]
      · intro hc b hb
        show (lateInitDefaultBranch rp.defaultBranch r c).1 = some b
        unfold lateInitDefaultBranch
        cases htt : r.templateRepository with
        | none => simp [hdb, hb, fillField]
        | some t => simp [hc, hdb, hb, fillField]

/-- C3 (witness): concrete runs of LateInitialize: in the creating phase with
a template origin the default branch comes from the template ("trunk", not
the repository's own "main"); outside the creating phase it comes from the
repository's own default branch. -/
theorem lateInitialize_defaultBranch_witness :
    (rpTemplBranchOut.defaultBranch = some "trunk" ∧
      rTemplBranchOut.defaultBranch = some "trunk") ∧
    rpOwnBranchOut.defaultBranch = some "develop" :=
  ⟨(lateInitialize_defaultBranch_from_template rpBare rTemplBranch condCreating
      rpTemplBranchOut rTemplBranchOut (by rfl) rfl).1
      ⟨some "tpl-owner/tpl", some "trunk"⟩ rfl rfl,
   (lateInitialize_defaultBranch_from_template rpBare rOwnBranch condNotCreating
      rpOwnBranchOut rOwnBranch (by rfl) rfl).2 (by decide) "develop" rfl⟩

/-- C9 (counterexample): LateInitialize does NOT panic on every call where the
observed owner is nil: when the parameters' organization is already set, Go's
short-circuiting && never dereferences r.Owner, so the call returns normally
even though r.Owner is nil. -/
theorem lateInitialize_owner_nil_no_panic_cx :
    rNoOwner.owner = none ∧
    (LateInitialize rpOrgSet rNoOwner condNotCreating).isSome = true :=
  ⟨rfl, rfl⟩

/-- C9 (amended): the unstated panic preconditions of LateInitialize: it
dereferences r.Owner.Type when (and only when reached, i.e. when) the
parameters' organization is unset, so it panics whenever the organization is
unset and r.Owner is nil; it dereferences r.Organization.Login when the
organization is unset and the owner type is "Organization", panicking when
r.Organization is nil; and it dereferences r.TemplateRepository.FullName
whenever the observed template origin is present, panicking when that
FullName is nil. -/
theorem lateInitialize_panic_conditions
    (rp : RepositoryParameters) (r : Repository) (c : Condition) :
    (rp.organization = none → r.owner = none →
      LateInitialize rp r c = none) ∧
    (∀ u, rp.organization = none → r.owner = some u →
      stringValue u.utype = "Organization" → r.organization = none →
      LateInitialize rp r c = none) ∧
    (∀ t, r.templateRepository = some t → t.fullName = none →
      LateInitialize rp r c = none) := by
  refine ⟨?_, ?_, ?_⟩
  · intro h1 h2
    simp [LateInitialize, lateInitOrg, h1, h2]
  · intro u h1 h2 h3 h4
    simp [LateInitialize, lateInitOrg, h1, h2, h3, h4]
  · intro t h1 h2
    cases hO : lateInitOrg rp.organization r with
    | none => simp [LateInitialize, hO]
    | some org => simp [LateInitialize, hO, lateInitTemplate, h1, h2]

/-- C9 (witness): each panic precondition exercised on a concrete input. -/
theorem lateInitialize_panic_conditions_witness :
    LateInitialize rpBare rNoOwner condNotCreating = none ∧
    LateInitialize rpBare rOrgNil condNotCreating = none ∧
    LateInitialize rpOrgSet rTemplNoName condNotCreating = none :=
  ⟨(lateInitialize_panic_conditions rpBare rNoOwner condNotCreating).1 rfl rfl,
   (lateInitialize_panic_conditions rpBare rOrgNil condNotCreating).2.1
     ⟨some "Organization"⟩ rfl rfl rfl rfl,
   (lateInitialize_panic_conditions rpOrgSet rTemplNoName condNotCreating).2.2
     ⟨none, none⟩ rfl rfl⟩

/-- C7: SplitFullName succeeds exactly when splitting on "/" yields exactly
two segments, producing the owner/name mapping, and fails with the fixed
"invalid fullname format" error for any other segment count; in particular on
"crossplane/provider-github" it yields the expected mapping and on
"crossplane" it yields the fixed error. -/
theorem splitFullName_spec :
    (∀ s : String, ∀ o n : String,
      (splitSlash s.toList).map (fun l => String.mk l) = [o, n] →
      SplitFullName s = .ok [("owner", o), ("name", n)]) ∧
    (∀ s : String, (splitSlash s.toList).length ≠ 2 →
      SplitFullName s = .error errFullname) ∧
    SplitFullName "crossplane/provider-github" =
      .ok [("owner", "crossplane"), ("name", "provider-github")] ∧
    SplitFullName "crossplane" = .error errFullname := by
  refine ⟨?_, ?_, by rfl, by rfl⟩
  · intro s o n h
    unfold SplitFullName
    rw [h]
  · intro s h
    unfold SplitFullName
    rcases hl : (splitSlash s.toList).map (fun l => String.mk l) with
      _ | ⟨o, _ | ⟨n, _ | ⟨x, t⟩⟩⟩
    · rfl
    · rfl
    · exfalso
      apply h
      have hlen := congrArg List.length hl
      simpa using hlen
    · rfl

/-- C7 (witness): the general clauses applied at concrete inputs. -/
theorem splitFullName_spec_witness :
    SplitFullName "a/b" = .ok [("owner", "a"), ("name", "b")] ∧
    SplitFullName "a/b/c" = .error errFullname :=
  ⟨splitFullName_spec.1 "a/b" "a" "b" (by decide),
   splitFullName_spec.2.1 "a/b/c" (by decide)⟩

/-- C6: behaviour of external.Observe, and the nil-response defect.  A fetch
failure whose (fallback) response carries status 404 reports non-existence
with no error; a failure with another status returns the wrapped error; a
successful fetch of a spec-matching repository reports exists and up-to-date,
and of a drifted repository (HasIssues desired true, observed false) exists
and not up-to-date.  But on a fetch failure with a NIL response — possible on
any transport-level error — the code panics on res.StatusCode instead of
returning the wrapped error the claim promises. -/
theorem observe_outcomes_and_nil_response_bug :
    Controller.Observe rpBare condNotCreating Controller.envNotFound =
      some ({}, none) ∧
    Controller.Observe rpBare condNotCreating Controller.envServerErr =
      some ({}, some "Cannot get GitHub repository: boom") ∧
    Controller.Observe Controller.rpMatch condNotCreating Controller.envMatch =
      some ({ resourceExists := true, resourceUpToDate := true,
              resourceLateInitialized := false }, none) ∧
    Controller.Observe Controller.rpDrift condNotCreating Controller.envDrift =
      some ({ resourceExists := true, resourceUpToDate := false,
              resourceLateInitialized := false }, none) ∧
    Controller.Observe rpBare condNotCreating Controller.envNilResp = none := by
  refine ⟨by decide, by decide, by decide, by decide, by decide⟩

/-- C10: the adapter's error branches read the HTTP response without a nil
check: whenever the repository lookups fail (so GetRepository surfaces the
second error) and the fallback response is nil, Observe panics; and whenever
CreateFromTemplate returns an error together with a nil response on the
template path, CreateRepository panics. -/
theorem responses_dereferenced_without_nil_check
    (rp : RepositoryParameters) (c : Condition) (env : Controller.ObserveEnv)
    (cenv : Controller.CreateEnv) :
    (∀ e1 e2, env.g1.err = some e1 → env.g2.err = some e2 →
      env.g2.resp = none → Controller.Observe rp c env = none) ∧
    (∀ tref kv e, rp.template = some tref →
      SplitFullName tref.name = .ok kv → cenv.tmplErr = some e →
      cenv.tmplResp = none → Controller.CreateRepository rp cenv = none) := by
  constructor
  · intro e1 e2 h1 h2 h3
    simp [Controller.Observe, Controller.GetRepository, h1, h2, h3]
  · intro tref kv e h1 h2 h3 h4
    simp [Controller.CreateRepository, h1, h2, h3, h4]

/-- C10 (witness): the two panic branches exercised on concrete inputs. -/
theorem responses_nil_check_witness :
    Controller.Observe rpBare condNotCreating Controller.envNilResp = none ∧
    Controller.CreateRepository Controller.rpTmplRef Controller.cenvNilResp =
      none :=
  ⟨(responses_dereferenced_without_nil_check rpBare condNotCreating
      Controller.envNilResp Controller.cenvNilResp).1 "boom" "boom" rfl rfl rfl,
   (responses_dereferenced_without_nil_check Controller.rpTmplRef
      condNotCreating Controller.envNilResp Controller.cenvNilResp).2
      ⟨"a/b"⟩ [("owner", "a"), ("name", "b")] "boom" rfl (by rfl) rfl rfl⟩

/-- C4: when the remote secret record is fetched successfully and the hash of
the current plaintext is recomputed successfully, the secrets IsUpToDate
returns, with no error, true exactly when BOTH the recomputed hash equals the
cached hash AND the remote last-update string equals the cached last-update
string. -/
theorem secrets_isUpToDate_iff_hash_and_timestamp
    (hashFn : String → String) (b64decode : String → Option (List Nat))
    (sealFn : String → String) (sec : Secrets.GHSecret)
    (pk : Secrets.PublicKey) (bytes : List Nat) (val : String)
    (o : Secrets.SecretsObservation) (name cachedH cachedL : String)
    (hk : b64decode pk.key = some bytes)
    (hH : o.encryptValue = some cachedH)
    (hL : o.lastUpdate = some cachedL) :
    Secrets.IsUpToDate hashFn b64decode sealFn (.ok sec) (.ok pk) (.ok val)
        o name =
      some (.ok (hashFn val == cachedH && sec.updatedAt == cachedL)) ∧
    (Secrets.IsUpToDate hashFn b64decode sealFn (.ok sec) (.ok pk) (.ok val)
        o name = some (.ok true) ↔
      hashFn val = cachedH ∧ sec.updatedAt = cachedL) := by
  have hmain : Secrets.IsUpToDate hashFn b64decode sealFn (.ok sec) (.ok pk)
      (.ok val) o name =
      some (.ok (hashFn val == cachedH && sec.updatedAt == cachedL)) := by
    simp only [Secrets.IsUpToDate, Secrets.callEncryptSecret,
      Secrets.encryptSecret, hk, hH, hL]
    by_cases h1 : hashFn val = cachedH
    · by_cases h2 : sec.updatedAt = cachedL
      · simp [h1, h2]
      · simp [h1, h2]
    · simp [h1]
  refine ⟨hmain, ?_⟩
  rw [hmain]
  constructor
  · intro h
    simp only [Option.some.injEq, Except.ok.injEq, Bool.and_eq_true,
      beq_iff_eq] at h
    exact h
  · rintro ⟨h1, h2⟩
    simp [h1, h2]

/-- C4 (witness): the theorem at a concrete matching observation, giving
up-to-date true, and at a drifted hash, giving false. -/
theorem secrets_isUpToDate_witness :
    Secrets.IsUpToDate Secrets.hashFix Secrets.b64Fix Secrets.sealFix
        (.ok Secrets.secFix) (.ok Secrets.pkFix) (.ok "v")
        Secrets.obsFix "fakeTest" = some (.ok true) ∧
    Secrets.IsUpToDate Secrets.hashFix Secrets.b64Fix Secrets.sealFix
        (.ok Secrets.secFix) (.ok Secrets.pkFix) (.ok "other")
        Secrets.obsFix "fakeTest" = some (.ok false) :=
  ⟨(secrets_isUpToDate_iff_hash_and_timestamp Secrets.hashFix Secrets.b64Fix
      Secrets.sealFix Secrets.secFix Secrets.pkFix [] "v" Secrets.obsFix
      "fakeTest" (Secrets.hashFix "v") "0001-01-01 00:00:00 +0000 UTC"
      rfl rfl rfl).2.mpr ⟨rfl, rfl⟩,
   (secrets_isUpToDate_iff_hash_and_timestamp Secrets.hashFix Secrets.b64Fix
      Secrets.sealFix Secrets.secFix Secrets.pkFix [] "other" Secrets.obsFix
      "fakeTest" (Secrets.hashFix "v") "0001-01-01 00:00:00 +0000 UTC"
      rfl rfl rfl).1⟩

/-- C5: the extraction error is DISCARDED, contradicting the claim and the
repository's own test "CannotExtractSecret": when resource.ExtractSecret
fails, callEncryptSecret proceeds with the empty plaintext and returns
success (hash of ""), CreateOrUpdateSec uploads and returns that hash with no
error, and the secrets IsUpToDate returns a plain false with NO error instead
of the extraction error the test expects. -/
theorem secret_extraction_error_ignored :
    Secrets.callEncryptSecret Secrets.hashFix Secrets.b64Fix Secrets.sealFix
        (.ok Secrets.pkFix)
        (.error "cannot extract from secret key when none specified")
        "fakeTest" =
      .ok ({ name := "fakeTest", keyID := Secrets.pkFix.keyID,
             encryptedValue := Secrets.sealFix "" }, Secrets.hashFix "") ∧
    Secrets.CreateOrUpdateSec Secrets.hashFix Secrets.b64Fix Secrets.sealFix
        (.ok Secrets.pkFix)
        (.error "cannot extract from secret key when none specified")
        none "fakeTest" = .ok (Secrets.hashFix "") ∧
    Secrets.IsUpToDate Secrets.hashFix Secrets.b64Fix Secrets.sealFix
        (.ok Secrets.secFix) (.ok Secrets.pkFix)
        (.error "cannot extract from secret key when none specified")
        Secrets.obsFix "fakeTest" = some (.ok false) := by
  refine ⟨rfl, rfl, by rfl⟩
